import Mathlib

/-!
Verification of `installRpackages.py`: a shallow embedding of the R package
installation orchestrator and its installation strategies, together with
theorems settling the specification's claims about it.

Modelling conventions:
* External subprocess outcomes are an oracle `REnv` mapping each command the
  script can run to the exit code (and, where the script captures output, the
  captured streams) the outside world would produce.  The oracle is stateless:
  one `REnv` value describes the world at one instant.
* `subprocess.run` WITHOUT `capture_output=True` yields a `CompletedProcess`
  whose `stderr` and `stdout` fields are `None`; the embedding returns `none`
  for those fields wherever the Python does not capture.
* Python exceptions (`AttributeError` from `None.strip()`, `TypeError` from
  `str.join` called with several positional arguments, `NameError`) are
  modelled with `Except PyError`.
* The working directory is a finite map from file name to file lines (`Fs`).
* Printing, directory creation and log appending have no bearing on any
  claim's return values and are dropped.
-/

/-- Python runtime errors that the embedded code paths can raise. -/
inductive PyError where
  | attributeError (msg : String)
  | typeError (msg : String)
  | nameError (msg : String)
  deriving DecidableEq

/-- Message of the `AttributeError` raised by `None.strip()`. -/
def pyNoneStripMsg : String := "NoneType object has no attribute strip"

/-- Python `a or b` on optional strings: `None` and `""` are falsy. -/
def pyOr : Option String → Option String → Option String
  | none, b => b
  | some s, b => if s = "" then b else some s

/-- Python `x.strip()` where `x` may be `None`: stripping `None` raises
`AttributeError`. -/
def pyStrip : Option String → Except PyError String
  | none => Except.error (PyError.attributeError pyNoneStripMsg)
  | some s => Except.ok s.trim

/-- Python `sep.join(a, b, ...)` with the given positional arguments.
`str.join` takes exactly one iterable argument, so a call with two or more
arguments raises `TypeError`; with a single string argument it interleaves
the separator between that string's characters. -/
def pyJoinMulti (sep : String) (args : List String) : Except PyError String :=
  match args with
  | [s] => Except.ok (String.intercalate sep (s.toList.map String.singleton))
  | _ => Except.error (PyError.typeError
      ("str.join takes exactly one argument (" ++ toString args.length ++ " given)"))

/-- Python `a or b` on two captured byte strings: an empty string is falsy. -/
def bytesOr (a b : String) : String := if a = "" then b else a

/-- Python truthiness of an optional string (`if gitRepo:`). -/
def pyTruthy : Option String → Bool
  | none => false
  | some s => s != ""

/-- The working directory: file name to file lines. -/
abbrev Fs := List (String × List String)

/-- Look a file up in the working directory. -/
def lookupFs (fs : Fs) (name : String) : Option (List String) :=
  (fs.find? (fun p => p.1 == name)).map Prod.snd

/-- Write a file (overwriting any previous content). -/
def insertFs (fs : Fs) (name : String) (content : List String) : Fs :=
  (name, content) :: fs.filter (fun p => p.1 != name)

/-- Oracle for the external world: exit codes of every shell command the
script can run, directory listings, and the streams of the one subprocess
the script captures (`R CMD INSTALL` inside `installWithTarball`). -/
structure REnv where
  /-- Exit code of `bash -lc "module load R/<version> && Rscript -e <expr>"`,
  keyed by R version and R expression (`runRcmd`, src lines 41-46). -/
  rcmdCode : String → String → Int
  /-- `os.path.isdir` on `/hpc/apps/R/<version>/lib64/R/library/<package>/`. -/
  pkgDirExists : String → String → Bool
  /-- `os.listdir` on `/hpc/apps/R/<version>/lib64/R/library/`. -/
  libDir : String → List String
  /-- `dest.glob(f"<package>_*.tar.gz")` sorted by mtime, newest first. -/
  tarMatches : String → String → List String
  /-- Exit code of `R CMD INSTALL <tarball>` (captured run, src line 93). -/
  tarInstallCode : String → Int
  /-- Captured stderr of `R CMD INSTALL <tarball>`. -/
  tarInstallStderr : String → String
  /-- Captured stdout of `R CMD INSTALL <tarball>`. -/
  tarInstallStdout : String → String

/-- R expression built by `isInstalled` (src line 51). -/
def requireNamespaceExpr (package : String) : String :=
  "quit(status = if (requireNamespace(\"" ++ package ++ "\", quietly=TRUE)) 0 else 1)"

/-- R expression built by `installWithRscript` (src line 58). -/
def installPackagesExpr (package : String) : String :=
  "install.packages(\"" ++ package ++ "\")"

/-- R expression built by `installWithTarball` (src line 80). -/
def downloadPackagesExpr (package dest : String) : String :=
  "download.packages(\"" ++ package ++ "\", destdir=\"" ++ dest ++
    "\", repos=\"https://cran.r-project.org\", type=\"source\")"

/-- R expression built by `installFromGitHub` (src line 112). -/
def installGithubExpr (opt repo : String) : String :=
  opt ++ "::install_github(\"" ++ repo ++ "\")"

/-- R expression built by `installGiotto` (src line 129). -/
def pakInstallExpr (giotto : String) : String :=
  "pak::pkg_install(\"" ++ giotto ++ "\")"

/-- R expression built by `installBiocManager` (src line 145). -/
def biocInstallExpr (package : String) : String :=
  "BiocManager::install(c(\"" ++ package ++ "\"))"

/-- `runRcmd` (src lines 41-46): runs the module-load + Rscript command with
`subprocess.run` WITHOUT output capture, then returns
`[result.returncode, result.stderr, result.stdout]`.  Because nothing is
captured, the second and third components are always `None`. -/
def runRcmd (env : REnv) (r_version r_expr : String) :
    Int × Option String × Option String :=
  (env.rcmdCode r_version r_expr, none, none)

/-- `isInstalled` (src lines 49-54): a package counts as installed when its
library directory exists and its namespace loads with exit code 0. -/
def isInstalled (env : REnv) (r_version package : String) : Bool :=
  env.pkgDirExists r_version package &&
    ((runRcmd env r_version (requireNamespaceExpr package)).1 == 0)

/-- `installWithRscript` (src lines 56-71). -/
def installWithRscript (env : REnv) (r_version package : String) :
    Except PyError (Bool × String) :=
  let r := runRcmd env r_version (installPackagesExpr package)
  if r.1 != 0 || !(isInstalled env r_version package) then
    match pyStrip (pyOr r.2.1 r.2.2) with
    | Except.error e => Except.error e
    | Except.ok err =>
      if err != "" then
        Except.ok (false, "Installation using Rscript failed with error: " ++ err)
      else
        Except.ok (false, "Installation using Rscript failed with return code " ++
          toString r.1 ++ " (no output captured)")
  else
    Except.ok (true, "Successfully installed in R/" ++ r_version ++ " with Rscript")

/-- `installWithTarball` (src lines 73-105).  The `R CMD INSTALL` subprocess
is the one run with `capture_output=True`, so its streams are byte strings,
never `None`. -/
def installWithTarball (env : REnv) (r_version package : String) :
    Except PyError (Bool × String) :=
  let dest := "/adminfs/builds/R-" ++ r_version ++ "/packages"
  if (runRcmd env r_version (downloadPackagesExpr package dest)).1 != 0 then
    Except.ok (false, "Could not download latest tarball for " ++ package ++
      " from cran.r-project.org")
  else
    match env.tarMatches r_version package with
    | [] => Except.ok (false, "No tarball found for " ++ package)
    | tarball :: _ =>
      let code := env.tarInstallCode tarball
      if code != 0 || !(isInstalled env r_version package) then
        let err := (bytesOr (env.tarInstallStderr tarball)
          (env.tarInstallStdout tarball)).trim
        if err != "" then
          Except.ok (false, "Installation using tarball failed with error: " ++ err)
        else
          Except.ok (false, "Installation tarball Rscript failed with return code " ++
            toString code ++ " (no output captured)")
      else
        Except.ok (true, "Successfully installed in R/" ++ r_version ++ " with tarball")

/-- The `for opt in ["remotes", "devtools"]` loop of `installFromGitHub`
(src lines 110-125).  `msg` is the accumulator initialised to `""`; the
Python loop never reassigns it because the result of `",".join(msg, err)` is
discarded (and that call itself raises `TypeError`).  `lastErr` carries the
loop variable `err`, unbound (`NameError`) until first assigned. -/
def githubLoop (env : REnv) (r_version repo pkg : String) :
    String → Option String → List String → Except PyError (Bool × String)
  | msg, lastErr, [] =>
    if msg != "" then
      match lastErr with
      | some err =>
        Except.ok (false, "Installation using GitHub failed with error: " ++ err)
      | none => Except.error (PyError.nameError "err is not defined")
    else
      Except.ok (false, "Installation using GitHub failed (no output captured)")
  | msg, _lastErr, opt :: rest =>
    let r := runRcmd env r_version (installGithubExpr opt repo)
    if r.1 == 0 && isInstalled env r_version pkg then
      Except.ok (true, "Successfully installed in R/" ++ r_version ++
        " with GitHub " ++ opt)
    else
      match pyStrip (pyOr r.2.1 r.2.2) with
      | Except.error e => Except.error e
      | Except.ok err =>
        if err != "" then
          match pyJoinMulti "," [msg, err] with
          | Except.error e => Except.error e
          | Except.ok _ => githubLoop env r_version repo pkg msg (some err) rest
        else
          githubLoop env r_version repo pkg msg (some err) rest

/-- `installFromGitHub` (src lines 107-125): tries `remotes` then `devtools`. -/
def installFromGitHub (env : REnv) (r_version repo pkg : String) :
    Except PyError (Bool × String) :=
  githubLoop env r_version repo pkg "" none ["remotes", "devtools"]

/-- `installGiotto` (src lines 127-141). -/
def installGiotto (env : REnv) (r_version giotto : String) :
    Except PyError (Bool × String) :=
  let r := runRcmd env r_version (pakInstallExpr giotto)
  if r.1 != 0 || !(isInstalled env r_version giotto) then
    match pyStrip (pyOr r.2.1 r.2.2) with
    | Except.error e => Except.error e
    | Except.ok err =>
      if err != "" then
        Except.ok (false, "Installation using Giotto failed with error: " ++ err)
      else
        Except.ok (false, "Installation using Giotto failed with return code " ++
          toString r.1 ++ " (no output captured)")
  else
    Except.ok (true, "Successfully installed in R/" ++ r_version ++ " with Giotto")

/-- `installBiocManager` (src lines 143-157). -/
def installBiocManager (env : REnv) (r_version package : String) :
    Except PyError (Bool × String) :=
  let r := runRcmd env r_version (biocInstallExpr package)
  if r.1 != 0 || !(isInstalled env r_version package) then
    match pyStrip (pyOr r.2.1 r.2.2) with
    | Except.error e => Except.error e
    | Except.ok err =>
      if err != "" then
        Except.ok (false, "Installation using Bioconductor failed with error: " ++ err)
      else
        Except.ok (false, "Installation using Bioconductor failed with return code " ++
          toString r.1 ++ " (no output captured)")
  else
    Except.ok (true, "Successfully installed in R/" ++ r_version ++
      " with Bioconductor")

/-- `hadFailed` (src lines 160-168): returns `False` when `fail.txt` is
absent; otherwise runs the `grep | head | cut` pipeline through
`subprocess.run(cmd, shell=True, check=False)` WITHOUT output capture, so
`.stdout` is `None`, the explicit `out==None` guard fires, and the function
returns `False`. -/
def hadFailed (fs : Fs) (package : String) : Bool :=
  if !(lookupFs fs "fail.txt").isSome then
    false
  else
    let out : Option String := none
    match out with
    | none => false
    | some s => s.trim == package

/-- Python `s.endswith(sfx)`, computed over the character lists (core
`String.endsWith` works on byte positions and does not reduce
definitionally; this equivalent runs by structural recursion). -/
def strEndsWith (s sfx : String) : Bool :=
  List.isSuffixOf sfx.toList s.toList

/-- The strategies `installPackage` can drive, in the order invoked. -/
inductive Strategy where
  | rscript | tarball | github | giotto | bioc
  deriving DecidableEq

/-- `installPackage` (src lines 170-194), paired with the trace of strategies
actually invoked before the call returned or raised. -/
def installPackage (env : REnv) (fs : Fs) (r_version package : String)
    (check_pastFail : Bool) (gitRepo : Option String) :
    Except PyError (Bool × String) × List Strategy :=
  if isInstalled env r_version package then
    (Except.ok (true, ""), [])
  else if check_pastFail && hadFailed fs package then
    (Except.ok (false, ""), [])
  else if pyTruthy gitRepo then
    (installFromGitHub env r_version (gitRepo.getD "") package, [Strategy.github])
  else if strEndsWith package "/Giotto" then
    (installGiotto env r_version package, [Strategy.giotto])
  else
    match installWithRscript env r_version package with
    | Except.error e => (Except.error e, [Strategy.rscript])
    | Except.ok (success, msg) =>
      if success then
        (Except.ok (true, msg), [Strategy.rscript])
      else
        match installWithTarball env r_version package with
        | Except.error e => (Except.error e, [Strategy.rscript, Strategy.tarball])
        | Except.ok (success2, msg2) =>
          if success2 then
            match pyJoinMulti ", " [msg, msg2] with
            | Except.error e =>
              (Except.error e, [Strategy.rscript, Strategy.tarball])
            | Except.ok joined =>
              (Except.ok (true, joined), [Strategy.rscript, Strategy.tarball])
          else
            match installBiocManager env r_version package with
            | Except.error e =>
              (Except.error e, [Strategy.rscript, Strategy.tarball, Strategy.bioc])
            | Except.ok (success3, msg3) =>
              match pyJoinMulti ", " [msg, msg2, msg3] with
              | Except.error e =>
                (Except.error e, [Strategy.rscript, Strategy.tarball, Strategy.bioc])
              | Except.ok joined =>
                (Except.ok (success3, joined),
                  [Strategy.rscript, Strategy.tarball, Strategy.bioc])

/-- Case-insensitive comparison used by `sorted(..., key=str.casefold)`
(`str.casefold` coincides with lower-casing on the ASCII names involved). -/
def caseInsensLe (a b : String) : Bool :=
  decide (a.toLower < b.toLower) || a.toLower == b.toLower

/-- Insert into a list sorted by `caseInsensLe`. -/
def insertCaseInsens (x : String) : List String → List String
  | [] => [x]
  | y :: ys => if caseInsensLe x y then x :: y :: ys else y :: insertCaseInsens x ys

/-- `sorted(..., key=str.casefold)` as an insertion sort. -/
def sortCaseInsens : List String → List String
  | [] => []
  | x :: xs => insertCaseInsens x (sortCaseInsens xs)

/-- `savePackageList` (src lines 27-34): writes the case-insensitively sorted
library listing, minus `00LOCK*` entries, to the file `<r_version>.txt`. -/
def savePackageList (env : REnv) (fs : Fs) (r_version : String) : Fs :=
  insertFs fs (r_version ++ ".txt")
    ((sortCaseInsens (env.libDir r_version)).filter
      (fun item => !(item.startsWith "00LOCK")))

/-- `grep -Fvx -f patfile file`: the lines of `file` equal to no line of
`patfile`.  When either file is missing, grep fails and writes no lines to
stdout, so the redirected output is empty. -/
def grepFvxf (fs : Fs) (patfile file : String) : List String :=
  match lookupFs fs patfile, lookupFs fs file with
  | some pats, some lns => lns.filter (fun l => !(pats.contains l))
  | _, _ => []

/-- `comparePackages` (src lines 37-39): runs
`grep -Fvx -f v_old v_new > missing.txt` — patterns from the file named
`v_old`, searched file named `v_new`. -/
def comparePackages (fs : Fs) (v_new v_old : String) : Fs :=
  insertFs fs "missing.txt" (grepFvxf fs v_old v_new)

/-- Lines 203-211 of `migrateVersions` followed by a read of `missing.txt`:
snapshot both inventories, compute the diff, return the diff file's lines. -/
def migrateDiff (env : REnv) (fs : Fs) (v_new v_old : String) : List String :=
  let fs1 := savePackageList env fs v_new
  let fs2 := savePackageList env fs1 v_old
  let fs3 := comparePackages fs2 v_new v_old
  (lookupFs fs3 "missing.txt").getD []

/-- An environment in which every probe succeeds: every command exits 0 and
every package directory exists, so `isInstalled` is everywhere true. -/
def envAll0 : REnv where
  rcmdCode := fun _ _ => 0
  pkgDirExists := fun _ _ => true
  libDir := fun _ => []
  tarMatches := fun _ _ => []
  tarInstallCode := fun _ => 0
  tarInstallStderr := fun _ => ""
  tarInstallStdout := fun _ => ""

/-- An environment in which every external command fails: every command
exits 1 and no package directory exists, so no package is installed and no
install action can succeed. -/
def envFail : REnv where
  rcmdCode := fun _ _ => 1
  pkgDirExists := fun _ _ => false
  libDir := fun _ => []
  tarMatches := fun _ _ => []
  tarInstallCode := fun _ => 1
  tarInstallStderr := fun _ => ""
  tarInstallStdout := fun _ => ""

/-- The world before any install of `survival`: the probe is negative, the
direct `install.packages` call exits 1, and the whole tarball machinery
(download, glob match, `R CMD INSTALL`) is set up to succeed. -/
def envC3pre : REnv where
  rcmdCode := fun _ e => if e == installPackagesExpr "survival" then 1 else 0
  pkgDirExists := fun _ _ => false
  libDir := fun _ => []
  tarMatches := fun _ _ => ["/adminfs/builds/R-4.5.0/packages/survival_3.8-3.tar.gz"]
  tarInstallCode := fun _ => 0
  tarInstallStderr := fun _ => ""
  tarInstallStdout := fun _ => ""

/-- The same world as `envC3pre` after a successful tarball build: the
probe is now positive. -/
def envC3post : REnv where
  rcmdCode := fun _ e => if e == installPackagesExpr "survival" then 1 else 0
  pkgDirExists := fun _ _ => true
  libDir := fun _ => []
  tarMatches := fun _ _ => ["/adminfs/builds/R-4.5.0/packages/survival_3.8-3.tar.gz"]
  tarInstallCode := fun _ => 0
  tarInstallStderr := fun _ => ""
  tarInstallStdout := fun _ => ""

/-- A world in which `remotes::install_github("org/repo")` exits 1 while
every other command exits 0 and every package directory exists, so the
`devtools` attempt would both exit 0 and pass the probe. -/
def envC7 : REnv where
  rcmdCode := fun _ e => if e == installGithubExpr "remotes" "org/repo" then 1 else 0
  pkgDirExists := fun _ _ => true
  libDir := fun _ => []
  tarMatches := fun _ _ => []
  tarInstallCode := fun _ => 0
  tarInstallStderr := fun _ => ""
  tarInstallStdout := fun _ => ""

/-- A world whose new-version (4.5.0) library holds `{B, C, D}` and whose
old-version (4.4.2) library holds `{A, B, C}`. -/
def envC5 : REnv where
  rcmdCode := fun _ _ => 1
  pkgDirExists := fun _ _ => false
  libDir := fun v => if v == "4.5.0" then ["B", "C", "D"] else ["A", "B", "C"]
  tarMatches := fun _ _ => []
  tarInstallCode := fun _ => 1
  tarInstallStderr := fun _ => ""
  tarInstallStdout := fun _ => ""

/-- A working directory whose failure ledger records a failed `survival`
install under the exact `package: message` format. -/
def ledgerFs : Fs := [("fail.txt", ["survival: could not compile"])]

/-- `hadFailed` always returns false: the `fail.txt` miss case immediately,
and the hit case because the pipeline output is never captured. -/
theorem hadFailed_eq_false (fs : Fs) (package : String) :
    hadFailed fs package = false := by
  unfold hadFailed
  split <;> rfl

/-- C1: if `isInstalled` holds, `installPackage` returns success with an
empty message and invokes no installation strategy (empty strategy trace). -/
theorem installPackage_idempotent_noop (env : REnv) (fs : Fs)
    (r_version package : String) (check_pastFail : Bool) (gitRepo : Option String)
    (h : isInstalled env r_version package = true) :
    installPackage env fs r_version package check_pastFail gitRepo
      = (Except.ok (true, ""), []) := by
  simp [installPackage, h]

/-- Witness for C1 at a concrete world in which every probe succeeds. -/
theorem installPackage_idempotent_noop_witness :
    isInstalled envAll0 "4.5.0" "ggplot2" = true ∧
    installPackage envAll0 [] "4.5.0" "ggplot2" true none
      = (Except.ok (true, ""), []) :=
  ⟨rfl, installPackage_idempotent_noop envAll0 [] "4.5.0" "ggplot2" true none rfl⟩

/-- C2 (bug): even with a ledger entry whose leading token exactly equals the
package name, `hadFailed` returns false — the grep pipeline's stdout is not
captured, so it is `None` and the guard fires — and `installPackage` with
`check_pastFail = true` goes on to invoke the Rscript strategy instead of
returning failure with no strategy invoked. -/
theorem hadFailed_ledger_gating_bug :
    lookupFs ledgerFs "fail.txt" = some ["survival: could not compile"] ∧
    hadFailed ledgerFs "survival" = false ∧
    (installPackage envFail ledgerFs "4.5.0" "survival" true none).2
      = [Strategy.rscript] :=
  ⟨rfl, rfl, rfl⟩

/-- C3 (bug): in the post-build world the tarball strategy on its own
succeeds, yet `installPackage` in the pre-build world never reaches it — the
failing Rscript strategy raises `AttributeError` (`None.strip()`, since
`runRcmd` captures no output) and the strategy trace stops at `rscript`. -/
theorem tarball_fallback_bug :
    installWithTarball envC3post "4.5.0" "survival"
      = Except.ok (true, "Successfully installed in R/4.5.0 with tarball") ∧
    installPackage envC3pre [] "4.5.0" "survival" true none
      = (Except.error (PyError.attributeError pyNoneStripMsg), [Strategy.rscript]) :=
  ⟨rfl, rfl⟩

/-- C4 (bug): when every strategy's external command fails, `installPackage`
does not return an aggregated failure message — it raises `AttributeError`
at the first strategy; and the aggregation expression itself,
`", ".join(msg, msg2, msg3)`, raises `TypeError` because `str.join` takes a
single iterable argument. -/
theorem exhaustion_aggregation_bug :
    installPackage envFail [] "4.5.0" "multicross" true none
      = (Except.error (PyError.attributeError pyNoneStripMsg), [Strategy.rscript]) ∧
    pyJoinMulti ", " ["a", "b", "c"]
      = Except.error (PyError.typeError
          "str.join takes exactly one argument (3 given)") :=
  ⟨rfl, rfl⟩

/-- C5 (bug): with old inventory `{A,B,C}` (4.4.2) and new inventory
`{B,C,D}` (4.5.0), the migration's computed diff is `[]` — `comparePackages`
greps files named `4.4.2`/`4.5.0` while `savePackageList` wrote
`4.4.2.txt`/`4.5.0.txt`; and even on files under the names grep uses, the
pattern/input order computes new-minus-old `{D}`, not the claimed `{A}`. -/
theorem inventory_diff_bug :
    migrateDiff envC5 [] "4.5.0" "4.4.2" = [] ∧
    grepFvxf [("4.4.2", ["A", "B", "C"]), ("4.5.0", ["B", "C", "D"])]
      "4.4.2" "4.5.0" = ["D"] :=
  ⟨rfl, rfl⟩

/-- C6 (bug): an individual strategy failure is not converted to a
diagnostic message — `installWithRscript` raises `AttributeError` because
its diagnostic extraction strips `None` (nothing was captured). -/
theorem strategy_failure_raises_bug :
    installWithRscript envFail "4.5.0" "terra"
      = Except.error (PyError.attributeError pyNoneStripMsg) := rfl

/-- C7 (bug): in a world where the `devtools` attempt alone would succeed,
`installFromGitHub` still raises `AttributeError` on the failed `remotes`
attempt (stripping the uncaptured `None` stderr) and never reaches
`devtools`. -/
theorem github_fallback_bug :
    githubLoop envC7 "4.5.0" "org/repo" "mypkg" "" none ["devtools"]
      = Except.ok (true, "Successfully installed in R/4.5.0 with GitHub devtools") ∧
    installFromGitHub envC7 "4.5.0" "org/repo" "mypkg"
      = Except.error (PyError.attributeError pyNoneStripMsg) :=
  ⟨rfl, rfl⟩

/-- C8 (counterexample): the name `drieslab/Giotto_pkg` does not end in the
`/Giotto` suffix the code tests, so `installPackage` routes it to the
ordinary chain — the strategy trace is `[rscript]`, not `[giotto]`. -/
theorem giotto_suffix_counterexample :
    (strEndsWith "drieslab/Giotto_pkg" "/Giotto") = false ∧
    (installPackage envFail [] "4.5.0" "drieslab/Giotto_pkg" true none).2
      = [Strategy.rscript] :=
  ⟨rfl, rfl⟩

/-- C8 (amended): for the name `drieslab/Giotto` — which does end in the
`/Giotto` suffix — with no repository locator and the package not already
installed, `installPackage` dispatches directly and only to the Giotto
installer: the strategy trace is exactly `[giotto]`. -/
theorem giotto_dispatch_amended (env : REnv) (fs : Fs) (r_version : String)
    (h : isInstalled env r_version "drieslab/Giotto" = false) :
    (installPackage env fs r_version "drieslab/Giotto" true none).2
      = [Strategy.giotto] := by
  have he : (strEndsWith "drieslab/Giotto" "/Giotto") = true := rfl
  simp [installPackage, h, hadFailed_eq_false, pyTruthy, he]

/-- Witness for the amended C8 at a concrete world with nothing installed. -/
theorem giotto_dispatch_amended_witness :
    isInstalled envFail "4.5.0" "drieslab/Giotto" = false ∧
    (installPackage envFail [] "4.5.0" "drieslab/Giotto" true none).2
      = [Strategy.giotto] :=
  ⟨rfl, giotto_dispatch_amended envFail [] "4.5.0" rfl⟩

/-- C9: `hadFailed` returns false when no `fail.txt` exists in the working
directory, and in every other case as well — the scan's uncaptured output is
treated as absent evidence — and, being a total Boolean function of the
working directory, it raises nothing. -/
theorem hadFailed_returns_false (fs : Fs) (package : String) :
    hadFailed fs package = false :=
  hadFailed_eq_false fs package

/-- C10: `runRcmd` runs its subprocess without output capture, so the stderr
and stdout components of its result triple are always `None`; consequently
the strategies' shared diagnostic-extraction expression
`(stderr or stdout).strip()` operates on `None` and raises `AttributeError`
whenever it is reached. -/
theorem runRcmd_no_capture (env : REnv) (r_version r_expr : String) :
    (runRcmd env r_version r_expr).2.1 = none ∧
    (runRcmd env r_version r_expr).2.2 = none ∧
    pyStrip (pyOr (runRcmd env r_version r_expr).2.1
        (runRcmd env r_version r_expr).2.2)
      = Except.error (PyError.attributeError pyNoneStripMsg) :=
  ⟨rfl, rfl, rfl⟩
